import Mathlib

/-!
# Verification of `elevenlabs_s3/elevenlabs_s3.py`

A shallow embedding of the single source module of the `elevenlabs-s3`
repository.  The module exposes `text_to_speech`, which synthesizes audio via
an external service and persists the collected byte stream to a local folder,
to S3, to both, or (as a fallback) to the current working directory.

Modelling conventions:

* Python byte strings are `List Nat`; a chunk is falsy exactly when empty.
* `io.BytesIO` is modelled by `ByteStream` (a buffer plus a cursor); `write`
  has overwrite-at-cursor semantics, `getvalue` returns the whole buffer
  regardless of the cursor, and reading a stream (as `upload_fileobj` does)
  consumes it from the current cursor to the end.
* Optional string parameters are `Option String`; Python truthiness of
  `None`/`str` is `truthy` (`None` and `""` are falsy), and `a or b` on such
  values is `pyOr`.
* Environment variables are a record `Env` of `Option String` fields, one per
  `os.getenv` key the source reads.
* All externally visible side effects (the synthesis call, `os.makedirs`,
  writing a local file, `upload_fileobj`, `generate_presigned_url`) are
  recorded as an `Event` trace, in execution order.  Nondeterministic or
  external outcomes (the chunk stream, `uuid.uuid4()`, upload/sign failures)
  are inputs, collected in a `World` record.
* A Python function that may `raise` returns `Except TTSError _`; `Outcome`
  pairs the returned value (or propagated exception) with the event trace that
  had accumulated when control left `text_to_speech`.
* The returned `Dict[str, Any]` is an association list `List (String × String)`
  whose keys are exactly the string keys the source assigns, in assignment
  order.
-/

/-- Python truthiness of an `Optional[str]`: `None` and `""` are falsy. -/
def truthy : Option String → Bool
  | none => false
  | some s => s ≠ ""

/-- Python `a or b` on `Optional[str]` values: keep `a` when truthy, else `b`. -/
def pyOr (a b : Option String) : Option String :=
  if truthy a then a else b

/-- Python `a or d` where `a : Optional[str]` and `d` is a non-empty literal
default string: the default is used when `a` is `None` or `""`. -/
def py_str_or (a : Option String) (d : String) : String :=
  match a with
  | none => d
  | some s => if s ≠ "" then s else d

/-- Model of `os.path.join(a, b)` for the shapes reachable in the source (`b` is a
generated file name, never absolute and never empty): keep `b` if the head is
empty, avoid doubling the separator when the head already ends in `'/'`, else
join with one `'/'`. -/
def os_path_join (a b : String) : String :=
  if a = "" then b
  else if a.data.getLast? = some '/' then a ++ b
  else a ++ "/" ++ b

/-- The `elevenlabs.VoiceSettings` record, with numeric fields as rationals
(the source only ever constructs it with the exact values 0.0 and 1.0). -/
structure VoiceSettings where
  stability : Rat
  similarity_boost : Rat
  style : Rat
  use_speaker_boost : Bool
deriving Repr, DecidableEq

/-- The hard-coded `VoiceSettings(...)` literal of lines 150–155. -/
def default_voice_settings : VoiceSettings :=
  { stability := 0, similarity_boost := 1, style := 0, use_speaker_boost := true }

/-- Errors a run of `text_to_speech` can propagate.  `valueError` is Python's
`ValueError` (missing credentials); the others tag failures injected by the
external collaborators and are propagated verbatim. -/
inductive TTSError where
  | valueError (msg : String)
  | transportError (msg : String)
  | storageError (msg : String)
deriving Repr, DecidableEq

/-- Model of `io.BytesIO`: a finite byte buffer with a cursor. -/
structure ByteStream where
  data : List Nat
  pos : Nat
deriving Repr, DecidableEq

/-- Model of `BytesIO.write`: overwrite at the cursor, extend as needed, advance. -/
def ByteStream.write (b : ByteStream) (c : List Nat) : ByteStream :=
  { data := b.data.take b.pos ++ c ++ b.data.drop (b.pos + c.length),
    pos := b.pos + c.length }

/-- Model of `BytesIO.seek`. -/
def ByteStream.seek (b : ByteStream) (p : Nat) : ByteStream :=
  { data := b.data, pos := p }

/-- Model of `BytesIO.getvalue()`: the whole buffer, independent of the cursor. -/
def ByteStream.getvalue (b : ByteStream) : List Nat :=
  b.data

/-- Reading a stream to exhaustion from its current cursor, as
`boto3`'s `upload_fileobj` does. -/
def ByteStream.read_all (b : ByteStream) : List Nat :=
  b.data.drop b.pos

/-- Lines 172–177: drain the response chunks into a fresh `BytesIO`, skipping
falsy (empty) chunks, then `seek(0)`. -/
def collectChunks (chunks : List (List Nat)) : ByteStream :=
  (chunks.foldl (fun (s : ByteStream) c => if c ≠ [] then s.write c else s)
    { data := [], pos := 0 }).seek 0

/-- The environment variables the source reads via `os.getenv`. -/
structure Env where
  ELEVENLABS_API_KEY : Option String := none
  AWS_ACCESS_KEY_ID : Option String := none
  AWS_SECRET_ACCESS_KEY : Option String := none
  AWS_REGION_NAME : Option String := none
  AWS_S3_BUCKET_NAME : Option String := none
deriving Repr

/-- The keyword parameters of `text_to_speech` (lines 108–119).  The function
has no remote-folder parameter; `kwargs` are forwarded to the synthesis call
only and carry no information the persistence logic reads, so they are not
modelled. -/
structure TTSParams where
  text : String
  output_folder : Option String := none
  elevenlabs_api_key : Option String := none
  aws_s3_bucket_name : Option String := none
  aws_access_key_id : Option String := none
  aws_secret_access_key : Option String := none
  aws_region_name : Option String := none
  voice_id : Option String := none
  model_id : Option String := none
  voice_settings : Option VoiceSettings := none
deriving Repr

/-- Externally visible side effects of one invocation, in execution order. -/
inductive Event where
  /-- The `client.text_to_speech.convert(...)` call with the arguments the
  persistence logic controls (voice, model, settings, text). -/
  | convert (voice_id model_id : String) (vs : VoiceSettings) (text : String)
  /-- Call `os.makedirs(path, exist_ok=...)`.  With `exist_ok = true` a
  pre-existing directory is not an error, so the event never fails. -/
  | mkdirs (path : String) (exist_ok : Bool)
  /-- Call `open(path, "wb")` followed by writing `data`. -/
  | writeFile (path : String) (data : List Nat)
  /-- Call `s3_client.upload_fileobj(stream, bucket, key)` observing `data`. -/
  | s3Upload (bucket key : String) (data : List Nat)
  /-- Call of the signing capability with the given bucket, key and `expires_in`. -/
  | s3Sign (bucket key : String) (expires_in : Nat)
  /-- Deleting a local file.  The source never deletes anything; the
  constructor exists so the absence of rollback is statable. -/
  | deleteFile (path : String)
deriving Repr, DecidableEq

/-- External, nondeterministic inputs of one invocation.  `chunks` are the
chunks the response yields before iteration either finishes or raises
`stream_error`; `fresh_uuid` is the rendering of the one `uuid.uuid4()` call
the executed branch makes; `upload_error` / `sign_outcome` are the outcomes
of the S3 calls, should they be reached. -/
structure World where
  chunks : List (List Nat)
  fresh_uuid : String
  convert_error : Option TTSError := none
  stream_error : Option TTSError := none
  upload_error : Option TTSError := none
  sign_outcome : Except TTSError String := Except.ok ""

/-- Model of `get_elevenlabs_client` (lines 15–28): explicit key, else environment,
else `ValueError`.  The client object itself is opaque. -/
def get_elevenlabs_client (elevenlabs_api_key : Option String) (env : Env) :
    Except TTSError Unit :=
  let k := pyOr elevenlabs_api_key env.ELEVENLABS_API_KEY
  if truthy k then Except.ok ()
  else Except.error (TTSError.valueError
    "ELEVENLABS_API_KEY not provided and not set in environment variables.")

/-- Model of `get_s3_client` (lines 31–59): each of the three credentials falls back to
the environment; if any resolves falsy, `ValueError`.  The client object is
opaque. -/
def get_s3_client (aws_access_key_id aws_secret_access_key aws_region_name : Option String)
    (env : Env) : Except TTSError Unit :=
  let ak := pyOr aws_access_key_id env.AWS_ACCESS_KEY_ID
  let sk := pyOr aws_secret_access_key env.AWS_SECRET_ACCESS_KEY
  let rg := pyOr aws_region_name env.AWS_REGION_NAME
  if truthy ak && truthy sk && truthy rg then Except.ok ()
  else Except.error (TTSError.valueError
    "AWS credentials not provided and not set in environment variables.")

/-- Model of `upload_audio_stream_to_s3` (lines 62–79): `seek(0)`, then the upload
consumes the stream from its (reset) cursor to the end.  The produced event
records the bytes the storage client reads. -/
def upload_audio_stream_to_s3 (audio_stream : ByteStream)
    (bucket_name s3_file_name : String) : Event :=
  let s := audio_stream.seek 0
  Event.s3Upload bucket_name s3_file_name s.read_all

/-- Default of the `expires_in` parameter of `generate_presigned_url`
(line 86). -/
def generate_presigned_url_default_expires : Nat := 3600

/-- Model of `generate_presigned_url` (lines 82–105): one unconditional call to the
storage client's signing capability for the given bucket and key; no
existence check of any kind precedes it. -/
def generate_presigned_url (bucket_name s3_file_name : String) (expires_in : Nat) : Event :=
  Event.s3Sign bucket_name s3_file_name expires_in

/-- Lines 180–187: `aws_s3_auth_provided = all([...])` over the four remote
fields, each resolved explicit-or-environment and tested for truthiness. -/
def aws_s3_auth_provided (p : TTSParams) (env : Env) : Bool :=
  truthy (pyOr p.aws_access_key_id env.AWS_ACCESS_KEY_ID) &&
  truthy (pyOr p.aws_secret_access_key env.AWS_SECRET_ACCESS_KEY) &&
  truthy (pyOr p.aws_region_name env.AWS_REGION_NAME) &&
  truthy (pyOr p.aws_s3_bucket_name env.AWS_S3_BUCKET_NAME)

/-- Lines 212 / 253: `aws_s3_bucket_name or os.getenv("AWS_S3_BUCKET_NAME")`,
as the string handed to the upload and signing calls. -/
def resolved_bucket (p : TTSParams) (env : Env) : String :=
  (pyOr p.aws_s3_bucket_name env.AWS_S3_BUCKET_NAME).getD ""

/-- What one invocation of `text_to_speech` produces: the returned dictionary
(or the propagated exception) together with the trace of external side
effects performed before control returned. -/
structure Outcome where
  result : Except TTSError (List (String × String))
  trace : List Event
deriving Repr

/-- Model of `text_to_speech` (lines 108–284), as a function of its parameters, the
environment snapshot, and the external-world inputs. -/
def text_to_speech (p : TTSParams) (env : Env) (w : World) : Outcome :=
  match get_elevenlabs_client p.elevenlabs_api_key env with
  | Except.error e => { result := Except.error e, trace := [] }
  | Except.ok () =>
    -- Default parameters (lines 147–155)
    let voice_id := py_str_or p.voice_id "pNInz6obpgDQGcFmaJgB"
    let model_id := py_str_or p.model_id "eleven_turbo_v2_5"
    let voice_settings := p.voice_settings.getD default_voice_settings
    -- Text-to-speech conversion (lines 157–170)
    let tr0 := [Event.convert voice_id model_id voice_settings p.text]
    match w.convert_error with
    | some e => { result := Except.error e, trace := tr0 }
    | none =>
    -- Read audio data into BytesIO (lines 172–177); a mid-stream failure
    -- propagates and the partially filled buffer is simply dropped.
    match w.stream_error with
    | some e => { result := Except.error e, trace := tr0 }
    | none =>
    let audio_stream := collectChunks w.chunks
    if truthy p.output_folder then
      let output_folder := p.output_folder.getD ""
      if aws_s3_auth_provided p env then
        -- Save in both local folder and S3 (lines 193–231)
        let filename := w.fresh_uuid ++ ".mp3"
        let filepath := os_path_join output_folder filename
        let tr1 := tr0 ++ [Event.mkdirs output_folder true,
                           Event.writeFile filepath audio_stream.getvalue]
        match get_s3_client p.aws_access_key_id p.aws_secret_access_key
            p.aws_region_name env with
        | Except.error e => { result := Except.error e, trace := tr1 }
        | Except.ok () =>
          let bucket := resolved_bucket p env
          let s3_file_name := filename
          let tr2 := tr1 ++ [upload_audio_stream_to_s3 audio_stream bucket s3_file_name]
          match w.upload_error with
          | some e => { result := Except.error e, trace := tr2 }
          | none =>
            let tr3 := tr2 ++ [generate_presigned_url bucket s3_file_name
                                 generate_presigned_url_default_expires]
            match w.sign_outcome with
            | Except.error e => { result := Except.error e, trace := tr3 }
            | Except.ok signed_url =>
              { result := Except.ok
                  [("file_path", filepath),
                   ("s3_file_name", s3_file_name),
                   ("s3_bucket_name", bucket),
                   ("s3_presigned_url", signed_url)],
                trace := tr3 }
      else
        -- Save only in local folder (lines 232–240)
        let filename := w.fresh_uuid ++ ".mp3"
        let filepath := os_path_join output_folder filename
        { result := Except.ok [("file_path", filepath)],
          trace := tr0 ++ [Event.mkdirs output_folder true,
                           Event.writeFile filepath audio_stream.getvalue] }
    else
      if aws_s3_auth_provided p env then
        -- Save only to S3 (lines 243–273)
        match get_s3_client p.aws_access_key_id p.aws_secret_access_key
            p.aws_region_name env with
        | Except.error e => { result := Except.error e, trace := tr0 }
        | Except.ok () =>
          let bucket := resolved_bucket p env
          let filename := w.fresh_uuid ++ ".mp3"
          let s3_file_name := filename
          let tr2 := tr0 ++ [upload_audio_stream_to_s3 audio_stream bucket s3_file_name]
          match w.upload_error with
          | some e => { result := Except.error e, trace := tr2 }
          | none =>
            let tr3 := tr2 ++ [generate_presigned_url bucket s3_file_name
                                 generate_presigned_url_default_expires]
            match w.sign_outcome with
            | Except.error e => { result := Except.error e, trace := tr3 }
            | Except.ok signed_url =>
              { result := Except.ok
                  [("s3_file_name", s3_file_name),
                   ("s3_bucket_name", bucket),
                   ("s3_presigned_url", signed_url)],
                trace := tr3 }
      else
        -- Save in default folder (lines 274–282): output_folder = "."
        -- and, unlike the explicit-folder branches, no os.makedirs call.
        let output_folder := "."
        let filename := w.fresh_uuid ++ ".mp3"
        let filepath := os_path_join output_folder filename
        { result := Except.ok [("file_path", filepath)],
          trace := tr0 ++ [Event.writeFile filepath audio_stream.getvalue] }

/-- Key presence in the returned dictionary. -/
def has_key (r : List (String × String)) (k : String) : Bool :=
  (r.lookup k).isSome

@[simp] theorem ByteStream.getvalue_eq (b : ByteStream) : b.getvalue = b.data := rfl

@[simp] theorem ByteStream.seek_zero_read_all (b : ByteStream) :
    (b.seek 0).read_all = b.data := by
  simp [ByteStream.seek, ByteStream.read_all]

theorem ByteStream.write_at_end (b : ByteStream) (c : List Nat) (h : b.pos = b.data.length) :
    b.write c = { data := b.data ++ c, pos := (b.data ++ c).length } := by
  unfold ByteStream.write
  rw [h, List.take_length, List.drop_eq_nil_of_le (by simp), List.length_append]
  simp

theorem collect_foldl_spec (chunks : List (List Nat)) (b : ByteStream)
    (h : b.pos = b.data.length) :
    chunks.foldl (fun (s : ByteStream) c => if c ≠ [] then s.write c else s) b =
      { data := b.data ++ (chunks.filter (fun c => c ≠ [])).flatten,
        pos := (b.data ++ (chunks.filter (fun c => c ≠ [])).flatten).length } := by
  induction chunks generalizing b with
  | nil =>
    obtain ⟨d, q⟩ := b
    simp at h
    simp [h]
  | cons c cs ih =>
    by_cases hc : c = []
    · simpa [hc] using ih b h
    · have hw := ByteStream.write_at_end b c h
      simp only [List.foldl_cons, if_pos hc, hw]
      rw [ih _ (by simp)]
      simp [hc, List.append_assoc]

/-- C8: the collected buffer is the concatenation, in arrival order, of
exactly the non-empty chunks of the response (empty chunks are skipped), and
after collection the cursor is back at offset 0, so every downstream consumer
reads the payload from the beginning. -/
theorem collectChunks_spec (chunks : List (List Nat)) :
    (collectChunks chunks).data = (chunks.filter (fun c => c ≠ [])).flatten ∧
    (collectChunks chunks).pos = 0 := by
  unfold collectChunks
  rw [collect_foldl_spec chunks { data := [], pos := 0 } rfl]
  simp [ByteStream.seek]

theorem get_elevenlabs_client_ok (k : Option String) (env : Env)
    (h : truthy (pyOr k env.ELEVENLABS_API_KEY) = true) :
    get_elevenlabs_client k env = Except.ok () := by
  simp [get_elevenlabs_client, h]

theorem get_s3_client_ok_of_auth (p : TTSParams) (env : Env)
    (h : aws_s3_auth_provided p env = true) :
    get_s3_client p.aws_access_key_id p.aws_secret_access_key p.aws_region_name env =
      Except.ok () := by
  simp only [aws_s3_auth_provided, Bool.and_eq_true] at h
  obtain ⟨⟨⟨h1, h2⟩, h3⟩, _⟩ := h
  simp [get_s3_client, h1, h2, h3]

/-- The convert event a run emits, as a function of the inputs. -/
def convert_event (p : TTSParams) : Event :=
  Event.convert (py_str_or p.voice_id "pNInz6obpgDQGcFmaJgB")
    (py_str_or p.model_id "eleven_turbo_v2_5")
    (p.voice_settings.getD default_voice_settings) p.text

/-- The generated file name of the executed branch. -/
def gen_filename (w : World) : String := w.fresh_uuid ++ ".mp3"

/-- Reduction of `text_to_speech` on the both-destinations, all-success path. -/
theorem run_both_ok (p : TTSParams) (env : Env) (w : World) (url : String)
    (hkey : truthy (pyOr p.elevenlabs_api_key env.ELEVENLABS_API_KEY) = true)
    (hfold : truthy p.output_folder = true)
    (hauth : aws_s3_auth_provided p env = true)
    (hc : w.convert_error = none) (hs : w.stream_error = none)
    (hu : w.upload_error = none) (hsig : w.sign_outcome = Except.ok url) :
    text_to_speech p env w =
      { result := Except.ok
          [("file_path", os_path_join (p.output_folder.getD "") (gen_filename w)),
           ("s3_file_name", gen_filename w),
           ("s3_bucket_name", resolved_bucket p env),
           ("s3_presigned_url", url)],
        trace := [convert_event p,
                  Event.mkdirs (p.output_folder.getD "") true,
                  Event.writeFile (os_path_join (p.output_folder.getD "") (gen_filename w))
                    (collectChunks w.chunks).data,
                  Event.s3Upload (resolved_bucket p env) (gen_filename w)
                    (collectChunks w.chunks).data,
                  Event.s3Sign (resolved_bucket p env) (gen_filename w) 3600] } := by
  unfold text_to_speech
  rw [get_elevenlabs_client_ok _ _ hkey, get_s3_client_ok_of_auth p env hauth]
  simp [hc, hs, hu, hsig, hfold, hauth, convert_event, gen_filename,
    upload_audio_stream_to_s3, generate_presigned_url,
    generate_presigned_url_default_expires]

/-- Reduction of `text_to_speech` on the local-only path. -/
theorem run_local_only (p : TTSParams) (env : Env) (w : World)
    (hkey : truthy (pyOr p.elevenlabs_api_key env.ELEVENLABS_API_KEY) = true)
    (hfold : truthy p.output_folder = true)
    (hauth : aws_s3_auth_provided p env = false)
    (hc : w.convert_error = none) (hs : w.stream_error = none) :
    text_to_speech p env w =
      { result := Except.ok
          [("file_path", os_path_join (p.output_folder.getD "") (gen_filename w))],
        trace := [convert_event p,
                  Event.mkdirs (p.output_folder.getD "") true,
                  Event.writeFile (os_path_join (p.output_folder.getD "") (gen_filename w))
                    (collectChunks w.chunks).data] } := by
  unfold text_to_speech
  rw [get_elevenlabs_client_ok _ _ hkey]
  simp [hc, hs, hfold, hauth, convert_event, gen_filename]

/-- Reduction of `text_to_speech` on the remote-only, all-success path. -/
theorem run_remote_ok (p : TTSParams) (env : Env) (w : World) (url : String)
    (hkey : truthy (pyOr p.elevenlabs_api_key env.ELEVENLABS_API_KEY) = true)
    (hfold : truthy p.output_folder = false)
    (hauth : aws_s3_auth_provided p env = true)
    (hc : w.convert_error = none) (hs : w.stream_error = none)
    (hu : w.upload_error = none) (hsig : w.sign_outcome = Except.ok url) :
    text_to_speech p env w =
      { result := Except.ok
          [("s3_file_name", gen_filename w),
           ("s3_bucket_name", resolved_bucket p env),
           ("s3_presigned_url", url)],
        trace := [convert_event p,
                  Event.s3Upload (resolved_bucket p env) (gen_filename w)
                    (collectChunks w.chunks).data,
                  Event.s3Sign (resolved_bucket p env) (gen_filename w) 3600] } := by
  unfold text_to_speech
  rw [get_elevenlabs_client_ok _ _ hkey, get_s3_client_ok_of_auth p env hauth]
  simp [hc, hs, hu, hsig, hfold, hauth, convert_event, gen_filename,
    upload_audio_stream_to_s3, generate_presigned_url,
    generate_presigned_url_default_expires]

/-- Reduction of `text_to_speech` on the fallback path: neither an output
folder nor a full remote group; the file goes to `"."`, with no makedirs. -/
theorem run_fallback (p : TTSParams) (env : Env) (w : World)
    (hkey : truthy (pyOr p.elevenlabs_api_key env.ELEVENLABS_API_KEY) = true)
    (hfold : truthy p.output_folder = false)
    (hauth : aws_s3_auth_provided p env = false)
    (hc : w.convert_error = none) (hs : w.stream_error = none) :
    text_to_speech p env w =
      { result := Except.ok [("file_path", os_path_join "." (gen_filename w))],
        trace := [convert_event p,
                  Event.writeFile (os_path_join "." (gen_filename w))
                    (collectChunks w.chunks).data] } := by
  unfold text_to_speech
  rw [get_elevenlabs_client_ok _ _ hkey]
  simp [hc, hs, hfold, hauth, convert_event, gen_filename]

/-- Reduction of `text_to_speech` when the synthesis call itself raises. -/
theorem run_convert_fail (p : TTSParams) (env : Env) (w : World) (e : TTSError)
    (hkey : truthy (pyOr p.elevenlabs_api_key env.ELEVENLABS_API_KEY) = true)
    (hc : w.convert_error = some e) :
    text_to_speech p env w =
      { result := Except.error e, trace := [convert_event p] } := by
  unfold text_to_speech
  rw [get_elevenlabs_client_ok _ _ hkey]
  simp [hc, convert_event]

/-- Reduction of `text_to_speech` when the chunk stream raises mid-stream. -/
theorem run_stream_fail (p : TTSParams) (env : Env) (w : World) (e : TTSError)
    (hkey : truthy (pyOr p.elevenlabs_api_key env.ELEVENLABS_API_KEY) = true)
    (hc : w.convert_error = none) (hs : w.stream_error = some e) :
    text_to_speech p env w =
      { result := Except.error e, trace := [convert_event p] } := by
  unfold text_to_speech
  rw [get_elevenlabs_client_ok _ _ hkey]
  simp [hc, hs, convert_event]

/-- Reduction of `text_to_speech` on the both-destinations path when the S3
upload fails after the local file was written. -/
theorem run_both_upload_fail (p : TTSParams) (env : Env) (w : World) (e : TTSError)
    (hkey : truthy (pyOr p.elevenlabs_api_key env.ELEVENLABS_API_KEY) = true)
    (hfold : truthy p.output_folder = true)
    (hauth : aws_s3_auth_provided p env = true)
    (hc : w.convert_error = none) (hs : w.stream_error = none)
    (hu : w.upload_error = some e) :
    text_to_speech p env w =
      { result := Except.error e,
        trace := [convert_event p,
                  Event.mkdirs (p.output_folder.getD "") true,
                  Event.writeFile (os_path_join (p.output_folder.getD "") (gen_filename w))
                    (collectChunks w.chunks).data,
                  Event.s3Upload (resolved_bucket p env) (gen_filename w)
                    (collectChunks w.chunks).data] } := by
  unfold text_to_speech
  rw [get_elevenlabs_client_ok _ _ hkey, get_s3_client_ok_of_auth p env hauth]
  simp [hc, hs, hu, hfold, hauth, convert_event, gen_filename,
    upload_audio_stream_to_s3]

/-- Reduction of `text_to_speech` on the both-destinations path when the
upload succeeds but the signing call fails. -/
theorem run_both_sign_fail (p : TTSParams) (env : Env) (w : World) (e : TTSError)
    (hkey : truthy (pyOr p.elevenlabs_api_key env.ELEVENLABS_API_KEY) = true)
    (hfold : truthy p.output_folder = true)
    (hauth : aws_s3_auth_provided p env = true)
    (hc : w.convert_error = none) (hs : w.stream_error = none)
    (hu : w.upload_error = none) (hsig : w.sign_outcome = Except.error e) :
    text_to_speech p env w =
      { result := Except.error e,
        trace := [convert_event p,
                  Event.mkdirs (p.output_folder.getD "") true,
                  Event.writeFile (os_path_join (p.output_folder.getD "") (gen_filename w))
                    (collectChunks w.chunks).data,
                  Event.s3Upload (resolved_bucket p env) (gen_filename w)
                    (collectChunks w.chunks).data,
                  Event.s3Sign (resolved_bucket p env) (gen_filename w) 3600] } := by
  unfold text_to_speech
  rw [get_elevenlabs_client_ok _ _ hkey, get_s3_client_ok_of_auth p env hauth]
  simp [hc, hs, hu, hsig, hfold, hauth, convert_event, gen_filename,
    upload_audio_stream_to_s3, generate_presigned_url,
    generate_presigned_url_default_expires]

/-- C1: over all combinations of (local folder present/absent, remote group
fully/partially/absent), `text_to_speech` activates exactly the destination
set of the spec's table: both present → local and remote; only a truthy
`output_folder` → local only; only a full remote group (all four fields
resolving explicit-or-environment to a truthy value) → remote only; a remote
group missing any field makes `aws_s3_auth_provided` false, i.e. remote not
requested; and when neither is requested the file is still written, into the
default folder `"."` (the current working directory), with no error. -/
theorem tts_destination_table (p : TTSParams) (env : Env) (w : World) (url : String)
    (hkey : truthy (pyOr p.elevenlabs_api_key env.ELEVENLABS_API_KEY) = true)
    (hc : w.convert_error = none) (hs : w.stream_error = none)
    (hu : w.upload_error = none) (hsig : w.sign_outcome = Except.ok url) :
    ∃ r, (text_to_speech p env w).result = Except.ok r ∧
      has_key r "file_path" = (truthy p.output_folder || !aws_s3_auth_provided p env) ∧
      has_key r "s3_file_name" = aws_s3_auth_provided p env ∧
      ((∃ pth d, Event.writeFile pth d ∈ (text_to_speech p env w).trace) ↔
        (truthy p.output_folder || !aws_s3_auth_provided p env) = true) ∧
      ((∃ b k d, Event.s3Upload b k d ∈ (text_to_speech p env w).trace) ↔
        aws_s3_auth_provided p env = true) ∧
      (truthy p.output_folder = false → aws_s3_auth_provided p env = false →
        r.lookup "file_path" = some (os_path_join "." (w.fresh_uuid ++ ".mp3"))) := by
  cases hL : truthy p.output_folder <;> cases hR : aws_s3_auth_provided p env
  · rw [run_fallback p env w hkey hL hR hc hs]
    refine ⟨_, rfl, ?_⟩
    simp [has_key, List.lookup, gen_filename, convert_event]
  · rw [run_remote_ok p env w url hkey hL hR hc hs hu hsig]
    refine ⟨_, rfl, ?_⟩
    simp [has_key, List.lookup, gen_filename, convert_event]
  · rw [run_local_only p env w hkey hL hR hc hs]
    refine ⟨_, rfl, ?_⟩
    simp [has_key, List.lookup, gen_filename, convert_event]
  · rw [run_both_ok p env w url hkey hL hR hc hs hu hsig]
    refine ⟨_, rfl, ?_⟩
    simp [has_key, List.lookup, gen_filename, convert_event]

/-- A concrete run with neither destination configured (sample input for the
destination-table theorem). -/
def pNeither : TTSParams := { text := "hello", elevenlabs_api_key := some "k" }

/-- A concrete external world in which every collaborator succeeds. -/
def wAllOk : World :=
  { chunks := [[1, 2], [], [3]], fresh_uuid := "name1",
    sign_outcome := Except.ok "https://signed.example" }

/-- Witness for `tts_destination_table` at a concrete neither-requested
input: the run succeeds and falls back to the default folder `"."`. -/
theorem tts_destination_table_witness :
    ∃ r, (text_to_speech pNeither {} wAllOk).result = Except.ok r ∧
      has_key r "file_path" =
        (truthy pNeither.output_folder || !aws_s3_auth_provided pNeither {}) ∧
      has_key r "s3_file_name" = aws_s3_auth_provided pNeither {} ∧
      ((∃ pth d, Event.writeFile pth d ∈ (text_to_speech pNeither {} wAllOk).trace) ↔
        (truthy pNeither.output_folder || !aws_s3_auth_provided pNeither {}) = true) ∧
      ((∃ b k d, Event.s3Upload b k d ∈ (text_to_speech pNeither {} wAllOk).trace) ↔
        aws_s3_auth_provided pNeither {} = true) ∧
      (truthy pNeither.output_folder = false → aws_s3_auth_provided pNeither {} = false →
        r.lookup "file_path" = some (os_path_join "." (wAllOk.fresh_uuid ++ ".mp3"))) :=
  tts_destination_table pNeither {} wAllOk "https://signed.example"
    (by decide) rfl rfl rfl rfl

/-- Reduction of `text_to_speech` on the remote-only path when the S3 upload
fails. -/
theorem run_remote_upload_fail (p : TTSParams) (env : Env) (w : World) (e : TTSError)
    (hkey : truthy (pyOr p.elevenlabs_api_key env.ELEVENLABS_API_KEY) = true)
    (hfold : truthy p.output_folder = false)
    (hauth : aws_s3_auth_provided p env = true)
    (hc : w.convert_error = none) (hs : w.stream_error = none)
    (hu : w.upload_error = some e) :
    text_to_speech p env w =
      { result := Except.error e,
        trace := [convert_event p,
                  Event.s3Upload (resolved_bucket p env) (gen_filename w)
                    (collectChunks w.chunks).data] } := by
  unfold text_to_speech
  rw [get_elevenlabs_client_ok _ _ hkey, get_s3_client_ok_of_auth p env hauth]
  simp [hc, hs, hu, hfold, hauth, convert_event, gen_filename,
    upload_audio_stream_to_s3]

/-- Reduction of `text_to_speech` on the remote-only path when the upload
succeeds but the signing call fails. -/
theorem run_remote_sign_fail (p : TTSParams) (env : Env) (w : World) (e : TTSError)
    (hkey : truthy (pyOr p.elevenlabs_api_key env.ELEVENLABS_API_KEY) = true)
    (hfold : truthy p.output_folder = false)
    (hauth : aws_s3_auth_provided p env = true)
    (hc : w.convert_error = none) (hs : w.stream_error = none)
    (hu : w.upload_error = none) (hsig : w.sign_outcome = Except.error e) :
    text_to_speech p env w =
      { result := Except.error e,
        trace := [convert_event p,
                  Event.s3Upload (resolved_bucket p env) (gen_filename w)
                    (collectChunks w.chunks).data,
                  Event.s3Sign (resolved_bucket p env) (gen_filename w) 3600] } := by
  unfold text_to_speech
  rw [get_elevenlabs_client_ok _ _ hkey, get_s3_client_ok_of_auth p env hauth]
  simp [hc, hs, hu, hsig, hfold, hauth, convert_event, gen_filename,
    upload_audio_stream_to_s3, generate_presigned_url,
    generate_presigned_url_default_expires]

/-- Whenever the API key resolves, the first external effect of a run is the
synthesis call, whatever happens afterwards. -/
theorem tts_trace_head (p : TTSParams) (env : Env) (w : World)
    (hkey : truthy (pyOr p.elevenlabs_api_key env.ELEVENLABS_API_KEY) = true) :
    (text_to_speech p env w).trace.head? = some (convert_event p) := by
  cases hc : w.convert_error with
  | some e => rw [run_convert_fail p env w e hkey hc]; rfl
  | none =>
  cases hs : w.stream_error with
  | some e => rw [run_stream_fail p env w e hkey hc hs]; rfl
  | none =>
  cases hL : truthy p.output_folder <;> cases hR : aws_s3_auth_provided p env
  · rw [run_fallback p env w hkey hL hR hc hs]; rfl
  · cases hu : w.upload_error with
    | some e => rw [run_remote_upload_fail p env w e hkey hL hR hc hs hu]; rfl
    | none =>
      cases hsig : w.sign_outcome with
      | error e => rw [run_remote_sign_fail p env w e hkey hL hR hc hs hu hsig]; rfl
      | ok url => rw [run_remote_ok p env w url hkey hL hR hc hs hu hsig]; rfl
  · rw [run_local_only p env w hkey hL hR hc hs]; rfl
  · cases hu : w.upload_error with
    | some e => rw [run_both_upload_fail p env w e hkey hL hR hc hs hu]; rfl
    | none =>
      cases hsig : w.sign_outcome with
      | error e => rw [run_both_sign_fail p env w e hkey hL hR hc hs hu hsig]; rfl
      | ok url => rw [run_both_ok p env w url hkey hL hR hc hs hu hsig]; rfl

/-- C4: when both destinations are active and the run succeeds, the local
write and the remote upload carry the exact same byte string `D` (the whole
collected payload — the local write reads it via `getvalue()`, the upload
re-reads it after `seek(0)`, both equivalent to a read from offset 0), and
the writes occur in the fixed order local first, then remote, as the trace
equation shows. -/
theorem tts_local_remote_same_bytes (p : TTSParams) (env : Env) (w : World)
    (url folder : String)
    (hkey : truthy (pyOr p.elevenlabs_api_key env.ELEVENLABS_API_KEY) = true)
    (hfold : p.output_folder = some folder) (hne : folder ≠ "")
    (hauth : aws_s3_auth_provided p env = true)
    (hc : w.convert_error = none) (hs : w.stream_error = none)
    (hu : w.upload_error = none) (hsig : w.sign_outcome = Except.ok url) :
    ∃ D, (text_to_speech p env w).trace =
        [convert_event p,
         Event.mkdirs folder true,
         Event.writeFile (os_path_join folder (w.fresh_uuid ++ ".mp3")) D,
         Event.s3Upload (resolved_bucket p env) (w.fresh_uuid ++ ".mp3") D,
         Event.s3Sign (resolved_bucket p env) (w.fresh_uuid ++ ".mp3") 3600] ∧
      D = (collectChunks w.chunks).data := by
  have hL : truthy p.output_folder = true := by simp [hfold, truthy, hne]
  rw [run_both_ok p env w url hkey hL hauth hc hs hu hsig]
  exact ⟨(collectChunks w.chunks).data, by simp [hfold, gen_filename], rfl⟩

/-- A concrete parameter set with a local folder and a full remote group. -/
def pBothC : TTSParams :=
  { text := "hi", output_folder := some "out", elevenlabs_api_key := some "k",
    aws_s3_bucket_name := some "buck", aws_access_key_id := some "a",
    aws_secret_access_key := some "b", aws_region_name := some "r" }

/-- Witness for `tts_local_remote_same_bytes` at a concrete input. -/
theorem tts_local_remote_same_bytes_witness :
    ∃ D, (text_to_speech pBothC {} wAllOk).trace =
        [convert_event pBothC,
         Event.mkdirs "out" true,
         Event.writeFile (os_path_join "out" (wAllOk.fresh_uuid ++ ".mp3")) D,
         Event.s3Upload (resolved_bucket pBothC {}) (wAllOk.fresh_uuid ++ ".mp3") D,
         Event.s3Sign (resolved_bucket pBothC {}) (wAllOk.fresh_uuid ++ ".mp3") 3600] ∧
      D = (collectChunks wAllOk.chunks).data :=
  tts_local_remote_same_bytes pBothC {} wAllOk "https://signed.example" "out"
    (by decide) rfl (by decide) (by decide) rfl rfl rfl rfl

/-- C5: when both destinations are active, the local write has happened, and
the subsequent upload (or the signing call) fails, the error is propagated as
the result, the already-written local file event stays in the trace, and no
deletion of any path ever appears in the trace (no rollback, no cleanup, no
partial success result). -/
theorem tts_no_rollback_on_remote_failure (p : TTSParams) (env : Env) (w : World)
    (e : TTSError)
    (hkey : truthy (pyOr p.elevenlabs_api_key env.ELEVENLABS_API_KEY) = true)
    (hfold : truthy p.output_folder = true)
    (hauth : aws_s3_auth_provided p env = true)
    (hc : w.convert_error = none) (hs : w.stream_error = none)
    (hfail : w.upload_error = some e ∨
      (w.upload_error = none ∧ w.sign_outcome = Except.error e)) :
    (text_to_speech p env w).result = Except.error e ∧
    (∃ d, Event.writeFile (os_path_join (p.output_folder.getD "") (w.fresh_uuid ++ ".mp3")) d ∈
      (text_to_speech p env w).trace) ∧
    (∀ pth, Event.deleteFile pth ∉ (text_to_speech p env w).trace) := by
  rcases hfail with hu | ⟨hu, hsig⟩
  · rw [run_both_upload_fail p env w e hkey hfold hauth hc hs hu]
    refine ⟨rfl, ⟨(collectChunks w.chunks).data, ?_⟩, ?_⟩
    · simp [gen_filename]
    · intro pth
      simp [convert_event, gen_filename]
  · rw [run_both_sign_fail p env w e hkey hfold hauth hc hs hu hsig]
    refine ⟨rfl, ⟨(collectChunks w.chunks).data, ?_⟩, ?_⟩
    · simp [gen_filename]
    · intro pth
      simp [convert_event, gen_filename]

/-- A concrete external world in which the S3 upload fails. -/
def wUploadFail : World :=
  { chunks := [[7]], fresh_uuid := "name2",
    upload_error := some (TTSError.storageError "upload failed") }

/-- Witness for `tts_no_rollback_on_remote_failure` at a concrete input. -/
theorem tts_no_rollback_on_remote_failure_witness :
    (text_to_speech pBothC {} wUploadFail).result =
      Except.error (TTSError.storageError "upload failed") ∧
    (∃ d, Event.writeFile
        (os_path_join (pBothC.output_folder.getD "") (wUploadFail.fresh_uuid ++ ".mp3")) d ∈
      (text_to_speech pBothC {} wUploadFail).trace) ∧
    (∀ pth, Event.deleteFile pth ∉ (text_to_speech pBothC {} wUploadFail).trace) :=
  tts_no_rollback_on_remote_failure pBothC {} wUploadFail
    (TTSError.storageError "upload failed")
    (by decide) (by decide) (by decide) rfl rfl (Or.inl rfl)

/-- C6: if the synthesis call raises, or the chunk stream raises before
collection completes, the failure is the propagated result and nothing is
persisted: the trace has no local-file write and no S3 upload. -/
theorem tts_transport_failure_persists_nothing (p : TTSParams) (env : Env) (w : World)
    (e : TTSError)
    (hkey : truthy (pyOr p.elevenlabs_api_key env.ELEVENLABS_API_KEY) = true)
    (hfail : w.convert_error = some e ∨
      (w.convert_error = none ∧ w.stream_error = some e)) :
    (text_to_speech p env w).result = Except.error e ∧
    (∀ pth d, Event.writeFile pth d ∉ (text_to_speech p env w).trace) ∧
    (∀ b k d, Event.s3Upload b k d ∉ (text_to_speech p env w).trace) := by
  rcases hfail with hce | ⟨hc, hse⟩
  · rw [run_convert_fail p env w e hkey hce]
    refine ⟨rfl, ?_, ?_⟩ <;> intro _ _ <;> simp [convert_event]
  · rw [run_stream_fail p env w e hkey hc hse]
    refine ⟨rfl, ?_, ?_⟩ <;> intro _ _ <;> simp [convert_event]

/-- A concrete external world in which the chunk stream raises mid-stream. -/
def wStreamFail : World :=
  { chunks := [[9, 9]], fresh_uuid := "name3",
    stream_error := some (TTSError.transportError "connection reset") }

/-- Witness for `tts_transport_failure_persists_nothing` at a concrete
input. -/
theorem tts_transport_failure_persists_nothing_witness :
    (text_to_speech pBothC {} wStreamFail).result =
      Except.error (TTSError.transportError "connection reset") ∧
    (∀ pth d, Event.writeFile pth d ∉ (text_to_speech pBothC {} wStreamFail).trace) ∧
    (∀ b k d, Event.s3Upload b k d ∉ (text_to_speech pBothC {} wStreamFail).trace) :=
  tts_transport_failure_persists_nothing pBothC {} wStreamFail
    (TTSError.transportError "connection reset")
    (by decide) (Or.inr ⟨rfl, rfl⟩)

/-- C7: whenever the remote upload succeeds, the very next external call is
the signing request for exactly the bucket and key just uploaded — nothing
(in particular no existence check, which the model has no effect for because
the source performs none) happens in between — the time-to-live passed is the
`expires_in` default 3600, and the resulting URL is recorded in the result
under `s3_presigned_url`. -/
theorem tts_sign_follows_upload (p : TTSParams) (env : Env) (w : World) (url : String)
    (hkey : truthy (pyOr p.elevenlabs_api_key env.ELEVENLABS_API_KEY) = true)
    (hauth : aws_s3_auth_provided p env = true)
    (hc : w.convert_error = none) (hs : w.stream_error = none)
    (hu : w.upload_error = none) (hsig : w.sign_outcome = Except.ok url) :
    ∃ pre r D,
      (text_to_speech p env w).trace =
        pre ++ [Event.s3Upload (resolved_bucket p env) (w.fresh_uuid ++ ".mp3") D,
                Event.s3Sign (resolved_bucket p env) (w.fresh_uuid ++ ".mp3")
                  generate_presigned_url_default_expires] ∧
      generate_presigned_url_default_expires = 3600 ∧
      (text_to_speech p env w).result = Except.ok r ∧
      r.lookup "s3_presigned_url" = some url ∧
      r.lookup "s3_file_name" = some (w.fresh_uuid ++ ".mp3") ∧
      r.lookup "s3_bucket_name" = some (resolved_bucket p env) := by
  cases hL : truthy p.output_folder
  · rw [run_remote_ok p env w url hkey hL hauth hc hs hu hsig]
    refine ⟨[convert_event p], _, (collectChunks w.chunks).data, ?_, rfl, rfl, ?_, ?_, ?_⟩ <;>
      simp [gen_filename, generate_presigned_url_default_expires, List.lookup]
  · rw [run_both_ok p env w url hkey hL hauth hc hs hu hsig]
    refine ⟨[convert_event p,
             Event.mkdirs (p.output_folder.getD "") true,
             Event.writeFile (os_path_join (p.output_folder.getD "") (gen_filename w))
               (collectChunks w.chunks).data],
            _, (collectChunks w.chunks).data, ?_, rfl, rfl, ?_, ?_, ?_⟩ <;>
      simp [gen_filename, generate_presigned_url_default_expires, List.lookup]

/-- A concrete parameter set with only the remote group configured. -/
def pRemoteC : TTSParams :=
  { text := "hi", elevenlabs_api_key := some "k",
    aws_s3_bucket_name := some "buck", aws_access_key_id := some "a",
    aws_secret_access_key := some "b", aws_region_name := some "r" }

/-- Witness for `tts_sign_follows_upload` at a concrete remote-only input. -/
theorem tts_sign_follows_upload_witness :
    ∃ pre r D,
      (text_to_speech pRemoteC {} wAllOk).trace =
        pre ++ [Event.s3Upload (resolved_bucket pRemoteC {}) (wAllOk.fresh_uuid ++ ".mp3") D,
                Event.s3Sign (resolved_bucket pRemoteC {}) (wAllOk.fresh_uuid ++ ".mp3")
                  generate_presigned_url_default_expires] ∧
      generate_presigned_url_default_expires = 3600 ∧
      (text_to_speech pRemoteC {} wAllOk).result = Except.ok r ∧
      r.lookup "s3_presigned_url" = some "https://signed.example" ∧
      r.lookup "s3_file_name" = some (wAllOk.fresh_uuid ++ ".mp3") ∧
      r.lookup "s3_bucket_name" = some (resolved_bucket pRemoteC {}) :=
  tts_sign_follows_upload pRemoteC {} wAllOk "https://signed.example"
    (by decide) (by decide) rfl rfl rfl rfl

/-- C9: when `voice_id`, `model_id` and `voice_settings` are not supplied,
the synthesis call is still made (it is the first external effect of the
run) and receives the hard-coded defaults: voice `"pNInz6obpgDQGcFmaJgB"`,
model `"eleven_turbo_v2_5"`, and the fixed `VoiceSettings(stability=0.0,
similarity_boost=1.0, style=0.0, use_speaker_boost=True)` record. -/
theorem tts_default_synthesis_params (p : TTSParams) (env : Env) (w : World)
    (hkey : truthy (pyOr p.elevenlabs_api_key env.ELEVENLABS_API_KEY) = true)
    (hv : p.voice_id = none) (hm : p.model_id = none)
    (hvs : p.voice_settings = none) :
    (text_to_speech p env w).trace.head? =
      some (Event.convert "pNInz6obpgDQGcFmaJgB" "eleven_turbo_v2_5"
        { stability := 0, similarity_boost := 1, style := 0, use_speaker_boost := true }
        p.text) := by
  rw [tts_trace_head p env w hkey]
  simp [convert_event, hv, hm, hvs, py_str_or, default_voice_settings]

/-- Witness for `tts_default_synthesis_params` at a concrete input that
supplies none of the three synthesis parameters. -/
theorem tts_default_synthesis_params_witness :
    (text_to_speech pNeither {} wAllOk).trace.head? =
      some (Event.convert "pNInz6obpgDQGcFmaJgB" "eleven_turbo_v2_5"
        { stability := 0, similarity_boost := 1, style := 0, use_speaker_boost := true }
        pNeither.text) :=
  tts_default_synthesis_params pNeither {} wAllOk (by decide) rfl rfl rfl

/-- C10: in the fallback branch (no truthy output folder, remote not
requested) the file is written to `os.path.join(".", name)` — the current
working directory — and the trace contains no `makedirs` call at all; in
every branch that writes to an explicitly supplied folder, the write is
immediately preceded by `makedirs(folder, exist_ok=True)`, whose `exist_ok`
flag makes a pre-existing folder a no-op rather than an error. -/
theorem tts_fallback_dot_no_mkdirs (p : TTSParams) (env : Env) (w : World)
    (hkey : truthy (pyOr p.elevenlabs_api_key env.ELEVENLABS_API_KEY) = true)
    (hc : w.convert_error = none) (hs : w.stream_error = none) :
    (truthy p.output_folder = false → aws_s3_auth_provided p env = false →
      (text_to_speech p env w).trace =
        [convert_event p,
         Event.writeFile (os_path_join "." (w.fresh_uuid ++ ".mp3"))
           (collectChunks w.chunks).data] ∧
      (∀ pth ex, Event.mkdirs pth ex ∉ (text_to_speech p env w).trace)) ∧
    (truthy p.output_folder = true →
      ∃ rest, (text_to_speech p env w).trace =
        convert_event p ::
        Event.mkdirs (p.output_folder.getD "") true ::
        Event.writeFile (os_path_join (p.output_folder.getD "") (w.fresh_uuid ++ ".mp3"))
          (collectChunks w.chunks).data :: rest) := by
  constructor
  · intro hL hR
    rw [run_fallback p env w hkey hL hR hc hs]
    refine ⟨by simp [gen_filename], ?_⟩
    intro pth ex
    simp [convert_event, gen_filename]
  · intro hL
    cases hR : aws_s3_auth_provided p env
    · rw [run_local_only p env w hkey hL hR hc hs]
      exact ⟨[], by simp [gen_filename]⟩
    · cases hu : w.upload_error with
      | some e =>
        rw [run_both_upload_fail p env w e hkey hL hR hc hs hu]
        exact ⟨[Event.s3Upload (resolved_bucket p env) (gen_filename w)
                  (collectChunks w.chunks).data],
               by simp [gen_filename]⟩
      | none =>
        cases hsig : w.sign_outcome with
        | error e =>
          rw [run_both_sign_fail p env w e hkey hL hR hc hs hu hsig]
          exact ⟨[Event.s3Upload (resolved_bucket p env) (gen_filename w)
                    (collectChunks w.chunks).data,
                  Event.s3Sign (resolved_bucket p env) (gen_filename w) 3600],
                 by simp [gen_filename]⟩
        | ok url =>
          rw [run_both_ok p env w url hkey hL hR hc hs hu hsig]
          exact ⟨[Event.s3Upload (resolved_bucket p env) (gen_filename w)
                    (collectChunks w.chunks).data,
                  Event.s3Sign (resolved_bucket p env) (gen_filename w) 3600],
                 by simp [gen_filename]⟩

/-- Witness for `tts_fallback_dot_no_mkdirs` at a concrete input (fallback
side exercised: neither destination configured). -/
theorem tts_fallback_dot_no_mkdirs_witness :
    (truthy pNeither.output_folder = false → aws_s3_auth_provided pNeither {} = false →
      (text_to_speech pNeither {} wAllOk).trace =
        [convert_event pNeither,
         Event.writeFile (os_path_join "." (wAllOk.fresh_uuid ++ ".mp3"))
           (collectChunks wAllOk.chunks).data] ∧
      (∀ pth ex, Event.mkdirs pth ex ∉ (text_to_speech pNeither {} wAllOk).trace)) ∧
    (truthy pNeither.output_folder = true →
      ∃ rest, (text_to_speech pNeither {} wAllOk).trace =
        convert_event pNeither ::
        Event.mkdirs (pNeither.output_folder.getD "") true ::
        Event.writeFile (os_path_join (pNeither.output_folder.getD "") (wAllOk.fresh_uuid ++ ".mp3"))
          (collectChunks wAllOk.chunks).data :: rest) :=
  tts_fallback_dot_no_mkdirs pNeither {} wAllOk (by decide) rfl rfl

/-- C2 (amended): the source attaches no correlation identifier to the
result on any path.  Every successful result's dictionary has no
`"correlation_id"` key, and all of its keys come from the fixed set
`{file_path, s3_file_name, s3_bucket_name, s3_presigned_url}`. -/
theorem tts_result_keys (p : TTSParams) (env : Env) (w : World)
    (r : List (String × String))
    (h : (text_to_speech p env w).result = Except.ok r) :
    r.lookup "correlation_id" = none ∧
    ∀ kv ∈ r, kv.1 ∈ ["file_path", "s3_file_name", "s3_bucket_name", "s3_presigned_url"] := by
  unfold text_to_speech at h
  repeat' split at h
  all_goals simp at h
  all_goals (subst h; simp [List.lookup])

/-- Witness for `tts_result_keys` at a concrete successful run. -/
theorem tts_result_keys_witness :
    List.lookup "correlation_id" [("file_path", "./name1.mp3")] = none ∧
    ∀ kv ∈ [("file_path", "./name1.mp3")],
      kv.1 ∈ ["file_path", "s3_file_name", "s3_bucket_name", "s3_presigned_url"] :=
  tts_result_keys pNeither {} wAllOk [("file_path", "./name1.mp3")] (by
    rw [run_fallback pNeither {} wAllOk (by decide) (by decide) (by decide) rfl rfl]
    simp [gen_filename, os_path_join, wAllOk])

/-- C2 counterexample: a concrete fully-successful remote run returns a
dictionary with no correlation identifier at all — its keys are exactly the
three S3 fields — contradicting the claim that a correlation identifier is
attached to the result unconditionally on every code path. -/
theorem tts_no_correlation_id_counterexample :
    (text_to_speech pRemoteC {} wAllOk).result =
      Except.ok [("s3_file_name", "name1.mp3"), ("s3_bucket_name", "buck"),
        ("s3_presigned_url", "https://signed.example")] ∧
    List.lookup "correlation_id"
      [("s3_file_name", "name1.mp3"), ("s3_bucket_name", "buck"),
        ("s3_presigned_url", "https://signed.example")] = none := by
  constructor
  · rw [run_remote_ok pRemoteC {} wAllOk "https://signed.example" (by decide) (by decide)
      (by decide) rfl rfl rfl rfl]
    simp [gen_filename, resolved_bucket, pyOr, truthy, pRemoteC, wAllOk]
  · simp [List.lookup]

/-- C3 (amended): `text_to_speech` accepts no remote-folder parameter, so no
folder is ever joined into the S3 key: whenever the remote destination is
active and the run succeeds, the key recorded in the result and the key used
by the upload and the signing call are all exactly `name ++ ".mp3"`, with no
path-separator joining step. -/
theorem tts_remote_key_no_folder (p : TTSParams) (env : Env) (w : World) (url : String)
    (hkey : truthy (pyOr p.elevenlabs_api_key env.ELEVENLABS_API_KEY) = true)
    (hauth : aws_s3_auth_provided p env = true)
    (hc : w.convert_error = none) (hs : w.stream_error = none)
    (hu : w.upload_error = none) (hsig : w.sign_outcome = Except.ok url) :
    ∃ r, (text_to_speech p env w).result = Except.ok r ∧
      r.lookup "s3_file_name" = some (w.fresh_uuid ++ ".mp3") ∧
      (∀ b k d, Event.s3Upload b k d ∈ (text_to_speech p env w).trace →
        k = w.fresh_uuid ++ ".mp3") ∧
      (∀ b k n, Event.s3Sign b k n ∈ (text_to_speech p env w).trace →
        k = w.fresh_uuid ++ ".mp3") := by
  cases hL : truthy p.output_folder
  · rw [run_remote_ok p env w url hkey hL hauth hc hs hu hsig]
    refine ⟨_, rfl, by simp [List.lookup, gen_filename], ?_, ?_⟩
    · intro b k d hmem
      simp [convert_event, gen_filename] at hmem
      exact hmem.2.1
    · intro b k n hmem
      simp [convert_event, gen_filename] at hmem
      exact hmem.2.1
  · rw [run_both_ok p env w url hkey hL hauth hc hs hu hsig]
    refine ⟨_, rfl, by simp [List.lookup, gen_filename], ?_, ?_⟩
    · intro b k d hmem
      simp [convert_event, gen_filename] at hmem
      exact hmem.2.1
    · intro b k n hmem
      simp [convert_event, gen_filename] at hmem
      exact hmem.2.1

/-- Witness for `tts_remote_key_no_folder` at a concrete remote-only run. -/
theorem tts_remote_key_no_folder_witness :
    ∃ r, (text_to_speech pRemoteC {} wAllOk).result = Except.ok r ∧
      r.lookup "s3_file_name" = some (wAllOk.fresh_uuid ++ ".mp3") ∧
      (∀ b k d, Event.s3Upload b k d ∈ (text_to_speech pRemoteC {} wAllOk).trace →
        k = wAllOk.fresh_uuid ++ ".mp3") ∧
      (∀ b k n, Event.s3Sign b k n ∈ (text_to_speech pRemoteC {} wAllOk).trace →
        k = wAllOk.fresh_uuid ++ ".mp3") :=
  tts_remote_key_no_folder pRemoteC {} wAllOk "https://signed.example"
    (by decide) (by decide) rfl rfl rfl rfl

/-- C3 counterexample: in a concrete run with both destinations active — the
closest the source gets to the claim's Scenario C, since it offers nowhere to
supply `remote_folder="clips"` — the uploaded and signed key is
`"name1.mp3"`, not the claimed `"clips/name1.mp3"`. -/
theorem tts_remote_key_counterexample :
    (text_to_speech pBothC {} wAllOk).result =
      Except.ok [("file_path", "out/name1.mp3"), ("s3_file_name", "name1.mp3"),
        ("s3_bucket_name", "buck"), ("s3_presigned_url", "https://signed.example")] ∧
    ("name1.mp3" : String) ≠ "clips/name1.mp3" := by
  constructor
  · rw [run_both_ok pBothC {} wAllOk "https://signed.example" (by decide) (by decide)
      (by decide) rfl rfl rfl rfl]
    simp [gen_filename, resolved_bucket, pyOr, truthy, os_path_join, pBothC, wAllOk]
  · decide
